import Mathlib

/-!
# Calypso fragment: notification row, owner-change data layer, editor actions

A shallow embedding of three JavaScript modules:

* `client/extensions/woocommerce/app/settings/email/email-settings/components/internal-notification.js`
* `client/state/data-layer/wpcom/jetpack/connection/owner/index.js`
* `client/state/ui/editor/actions.js`

JavaScript primitives are a small inductive type with the language's truthiness,
string coercion and JSON serialisation. Callbacks (`onChange`, `dispatch`) are
passed explicitly; calls to action creators and clients that live outside these
three files are kept symbolic, as constructors recording the call and its arguments.
-/

namespace Calypso

/-! ## JavaScript values -/

/-- The integers a JavaScript number holds exactly and without gaps: magnitude below
`2 ^ 53`. -/
abbrev SafeInteger : Type := { n : Int // n.natAbs < 2 ^ 53 }

/-- Primitive JavaScript values. Numbers are the safe integers: NaN, infinities,
fractions and magnitudes from `2 ^ 53` up are not values of this type. -/
inductive JSValue where
  | undefined
  | null
  | bool (b : Bool)
  | num (n : SafeInteger)
  | str (s : String)
  deriving DecidableEq

namespace JSValue

/-- Truthiness as used by `!v`, `v ? a : b` and `if ( v )`. -/
def truthy : JSValue → Bool
  | undefined => false
  | null => false
  | bool b => b
  | num n => n.val != 0
  | str s => s != ""

/-- String coercion as applied by `'...' + v`. A safe integer is below `10 ^ 21` in
magnitude, where `Number::toString` gives the decimal digits, with a leading minus sign
for a negative number. -/
def toJSString : JSValue → String
  | undefined => "undefined"
  | null => "null"
  | bool true => "true"
  | bool false => "false"
  | num n => toString n.val
  | str s => s

end JSValue

/-- Lower-case hexadecimal digit of a number below sixteen. -/
def hexDigit (n : Nat) : Char :=
  if n < 10 then Char.ofNat (48 + n) else Char.ofNat (87 + n)

/-- Escaping of one character inside a JSON string literal (`QuoteJSONString`): the
characters that replace it. -/
def jsonEscapeChar (c : Char) : List Char :=
  if c.toNat = 34 then [Char.ofNat 92, Char.ofNat 34]
  else if c.toNat = 92 then [Char.ofNat 92, Char.ofNat 92]
  else if c.toNat = 8 then [Char.ofNat 92, 'b']
  else if c.toNat = 12 then [Char.ofNat 92, 'f']
  else if c.toNat = 10 then [Char.ofNat 92, 'n']
  else if c.toNat = 13 then [Char.ofNat 92, 'r']
  else if c.toNat = 9 then [Char.ofNat 92, 't']
  else if c.toNat < 32 then
    [Char.ofNat 92, 'u', '0', '0', hexDigit (c.toNat / 16), hexDigit (c.toNat % 16)]
  else [c]

/-- A string as a quoted JSON string literal. -/
def jsonQuote (s : String) : String :=
  String.mk (Char.ofNat 34 :: (s.toList.flatMap jsonEscapeChar ++ [Char.ofNat 34]))

/-- The result of `JSON.stringify` on a primitive; `none` stands for the result
`undefined`. -/
def JSValue.toJSON : JSValue → Option String
  | .undefined => none
  | .null => some "null"
  | .bool true => some "true"
  | .bool false => some "false"
  | .num n => some (toString n.val)
  | .str s => some (jsonQuote s)

/-- The result of `JSON.stringify` on an object literal with primitive property values,
given as its property list in source order. Properties whose value is `undefined` are
left out. -/
def jsonStringify (props : List (String × JSValue)) : String :=
  "\x7b"
    ++ ",".intercalate
        (props.filterMap fun kv => kv.2.toJSON.map fun j => jsonQuote kv.1 ++ ":" ++ j)
    ++ "\x7d"

/-! ## `internal-notification.js` -/

/-- The notification item handed to the row: `{ field, title, subtitle }`. -/
structure NotificationItem where
  field : JSValue
  title : JSValue
  subtitle : JSValue
  deriving DecidableEq

/-- The object literal the row passes to `onChange`. -/
structure ChangeRecord where
  setting : JSValue
  option : String
  value : JSValue
  deriving DecidableEq

/-- The part of a DOM input event that the handler destructures: `{ target: { value } }`. -/
structure EventTarget where
  value : JSValue
  deriving DecidableEq

/-- An input event. -/
structure InputEvent where
  target : EventTarget
  deriving DecidableEq

/-- Props of `InternalNotification`. The callback `onChange` acts on the state `σ` of its
owner. -/
structure InternalNotificationProps (σ : Type) where
  item : NotificationItem
  recipient : JSValue
  checked : JSValue
  onChange : ChangeRecord → σ → σ
  isPlaceholder : JSValue

/-- The inner handler `toggle` of `InternalNotification`. -/
def InternalNotification.toggle {σ : Type} (props : InternalNotificationProps σ)
    (value : JSValue) : σ → σ :=
  props.onChange
    { setting := props.item.field
      option := "enabled"
      value := if value.truthy then .str "yes" else .str "no" }

/-- The inner handler `change` of `InternalNotification`. -/
def InternalNotification.change {σ : Type} (props : InternalNotificationProps σ)
    (event : InputEvent) : σ → σ :=
  props.onChange
    { setting := props.item.field
      option := "recipient"
      value := event.target.value }

/-- A callback that appends every record it receives to a log. -/
def recordChange (r : ChangeRecord) (log : List ChangeRecord) : List ChangeRecord :=
  log ++ [r]

/-- Props whose `onChange` is the logging callback. -/
def loggingProps (item : NotificationItem) (recipient checked isPlaceholder : JSValue) :
    InternalNotificationProps (List ChangeRecord) :=
  { item := item
    recipient := recipient
    checked := checked
    onChange := recordChange
    isPlaceholder := isPlaceholder }

/-! ## `data-layer/wpcom/jetpack/connection/owner/index.js` -/

/-- The `JETPACK_USER_CONNECTION_CHANGE_OWNER` action, with the fields the handlers read. -/
structure OwnerChangeAction where
  type : String
  siteId : JSValue
  newOwnerWporgId : JSValue
  newOwnerWpcomDisplayName : JSValue
  deriving DecidableEq

/-- The nested `body` object of the request. -/
structure InnerRequest where
  path : String
  body : String
  json : Bool
  deriving DecidableEq

/-- The request object handed to `http` as its first argument. -/
structure HttpRequest where
  apiVersion : String
  method : String
  path : String
  body : InnerRequest
  deriving DecidableEq

/-- A call `http( request, action )` of `state/data-layer/wpcom-http/actions`, kept
symbolic: the record of its two arguments. -/
structure HttpCall where
  request : HttpRequest
  action : OwnerChangeAction
  deriving DecidableEq

/-- A call `translate( original, { args } )` of `i18n-calypso`, kept symbolic: the
original string and the interpolation arguments in source order. -/
structure Translation where
  original : String
  args : List (String × JSValue)
  deriving DecidableEq

/-- Actions produced by the response handlers. Each constructor is a call of an action
creator imported from another module, kept symbolic. -/
inductive OwnerEffect where
  | successNotice (text : Translation)
  | errorNotice (text : Translation)
  | requestJetpackUserConnectionData (siteId : JSValue)
  deriving DecidableEq

/-- What a response handler hands back to `dispatchRequestEx`: one action, or an array
of actions. -/
inductive HandlerResult where
  | single (effect : OwnerEffect)
  | array (effects : List OwnerEffect)
  deriving DecidableEq

/-- The actions a handler result stands for, in dispatch order. -/
def HandlerResult.effects : HandlerResult → List OwnerEffect
  | .single e => [e]
  | .array es => es

/-- The `translate` call, recorded. -/
def translate (original : String) (args : List (String × JSValue)) : Translation :=
  { original := original, args := args }

/-- The `http` call, recorded. -/
def http (request : HttpRequest) (action : OwnerChangeAction) : HttpCall :=
  { request := request, action := action }

/-- The fetch handler `changeConnectionOwner`. -/
def changeConnectionOwner (action : OwnerChangeAction) : HttpCall :=
  http
    { apiVersion := "1.1"
      method := "POST"
      path := "/jetpack-blogs/" ++ action.siteId.toJSString ++ "/rest-api/"
      body :=
        { path := "/jetpack/v4/connection/owner/"
          body := jsonStringify [("owner", action.newOwnerWporgId)]
          json := true } }
    action

/-- The success handler `handleSuccess`. -/
def handleSuccess (action : OwnerChangeAction) : HandlerResult :=
  .array
    [ .successNotice
        (translate "Connection owner changed to %(user)s."
          [("user", action.newOwnerWpcomDisplayName)]),
      .requestJetpackUserConnectionData action.siteId ]

/-- The error handler `handleError`. -/
def handleError (action : OwnerChangeAction) : HandlerResult :=
  .single
    (.errorNotice
      (translate "Connection owner could not be changed to %(user)s. Please contact support."
        [("user", action.newOwnerWpcomDisplayName)]))

/-- The three handlers registered with `dispatchRequestEx` by the default export. -/
structure RequestHandlers where
  fetch : OwnerChangeAction → HttpCall
  onSuccess : OwnerChangeAction → HandlerResult
  onError : OwnerChangeAction → HandlerResult

/-- The handler set of the default export for `JETPACK_USER_CONNECTION_CHANGE_OWNER`. -/
def ownerChangeHandlers : RequestHandlers :=
  { fetch := changeConnectionOwner
    onSuccess := handleSuccess
    onError := handleError }

/-! ## `state/ui/editor/actions.js` -/

/-- A promise rejection reason: an `Error` object built here, or any value `e` the
network client rejects with. -/
inductive Reason (ε : Type) where
  | error (message : String)
  | other (e : ε)
  deriving DecidableEq

/-- The state of a promise once the event loop has run: still pending, fulfilled with a
value, or rejected with a reason. -/
inductive PromiseState (α ε : Type) where
  | pending
  | fulfilled (value : α)
  | rejected (reason : Reason ε)
  deriving DecidableEq

/-- An exception thrown synchronously by the language itself. -/
inductive JSException where
  | typeError
  deriving DecidableEq

/-- Actions dispatched by the editor thunks. The first four are the object literals of
this module, tagged by their `type`; the last three are calls of action creators
imported from other modules, kept symbolic. -/
inductive EditorAction (α ε : Type) where
  | EDITOR_AUTOSAVE
  | EDITOR_AUTOSAVE_RESET
  | EDITOR_AUTOSAVE_SUCCESS (autosave : α)
  | EDITOR_AUTOSAVE_FAILURE (error : Reason ε)
  | savePreference (key : String) (value : List JSValue)
  | recordTracksEvent (name : String)
  | bumpStat (group : String) (name : String)
  deriving DecidableEq

/-- The object literal sent with an autosave request. -/
structure AutosavePayload where
  content : JSValue
  title : JSValue
  excerpt : JSValue
  deriving DecidableEq

/-- Observable effects of a thunk, in the order they happen: calls of `dispatch`, and
calls of `wpcom.undocumented().site( siteId ).postAutosave( postId, payload )`. -/
inductive Effect (α ε : Type) where
  | dispatch (action : EditorAction α ε)
  | postAutosave (siteId : JSValue) (postId : JSValue) (payload : AutosavePayload)
  deriving DecidableEq

/-- One run of a thunk: its effects in order, and either the exception it threw or the
value it returned. -/
structure ThunkRun (α ε ρ : Type) where
  effects : List (Effect α ε)
  result : Except JSException ρ

/-- The post object, with the fields `editorAutosave` reads. -/
structure Post where
  ID : JSValue
  site_ID : JSValue
  content : JSValue
  title : JSValue
  excerpt : JSValue
  deriving DecidableEq

/-- The `options` object of a site. -/
structure SiteOptions where
  jetpack_version : JSValue
  deriving DecidableEq

/-- A site object, with the fields `editorAutosave` reads. `options = none` is a site
object without an `options` property. -/
structure Site where
  jetpack : Bool
  options : Option SiteOptions
  deriving DecidableEq

/-- The action creator `editorAutosaveReset`. -/
def editorAutosaveReset {α ε : Type} : EditorAction α ε :=
  .EDITOR_AUTOSAVE_RESET

/-- The action creator `editorAutosaveSuccess`. -/
def editorAutosaveSuccess {α ε : Type} (autosave : α) : EditorAction α ε :=
  .EDITOR_AUTOSAVE_SUCCESS autosave

/-- The action creator `editorAutosaveFailure`. -/
def editorAutosaveFailure {α ε : Type} (error : Reason ε) : EditorAction α ε :=
  .EDITOR_AUTOSAVE_FAILURE error

/-- The dispatch made by `autosaveResult.then( … ).catch( … )` once the request has
settled; nothing while it is pending. -/
def autosaveFollowUp {α ε : Type} : PromiseState α ε → List (Effect α ε)
  | .pending => []
  | .fulfilled autosave => [.dispatch (editorAutosaveSuccess autosave)]
  | .rejected error => [.dispatch (editorAutosaveFailure error)]

/-- The run that returns `Promise.reject( new Error( 'NO_AUTOSAVE' ) )` with no effect
before it. -/
def rejectNoAutosave {α ε : Type} : ThunkRun α ε (PromiseState α ε) :=
  { effects := [], result := .ok (.rejected (.error "NO_AUTOSAVE")) }

/-- The thunk `editorAutosave( post )( dispatch, getState )`.

`getSelectedSite` (of `state/ui/selectors`), `versionCompare` (of `lib/version-compare`)
and the network client are parameters: `postAutosave siteId postId payload` is the state
the request promise settles to. `dispatch` records the action and does not throw. -/
def editorAutosave {State α ε : Type}
    (getSelectedSite : State → Option Site)
    (versionCompare : JSValue → String → String → Bool)
    (postAutosave : JSValue → JSValue → AutosavePayload → PromiseState α ε)
    (post : Post) (state : State) : ThunkRun α ε (PromiseState α ε) :=
  let site := getSelectedSite state
  let proceed : ThunkRun α ε (PromiseState α ε) :=
    let payload : AutosavePayload :=
      { content := post.content, title := post.title, excerpt := post.excerpt }
    let autosaveResult := postAutosave post.site_ID post.ID payload
    { effects :=
        [.dispatch .EDITOR_AUTOSAVE, .postAutosave post.site_ID post.ID payload]
          ++ autosaveFollowUp autosaveResult
      result := .ok autosaveResult }
  if !post.ID.truthy then rejectNoAutosave
  else
    match site with
    | none => rejectNoAutosave
    | some site =>
      if site.jetpack then
        match site.options with
        | none => { effects := [], result := .error .typeError }
        | some options =>
          if versionCompare options.jetpack_version "3.7.0-dev" "<" then rejectNoAutosave
          else proceed
      else proceed

/-- Lodash `filter( collection, predicate )` on an array, or on a missing collection. -/
def lodashFilter (collection : Option (List JSValue)) (predicate : JSValue → Bool) :
    List JSValue :=
  match collection with
  | none => []
  | some xs => xs.filter predicate

/-- The thunk `saveConfirmationSidebarPreference( siteId, isEnabled )( dispatch, getState )`.

`getPreference` (of `state/preferences/selectors`) is a parameter; `none` is a preference
that is not an array. An `isEnabled` of `undefined` takes the default `true`. The
docstring in the source calls the result an action object; the function returns a thunk,
and the thunk is what is embedded here. -/
def saveConfirmationSidebarPreference {State α ε : Type}
    (getPreference : State → String → Option (List JSValue))
    (siteId : JSValue) (isEnabled : JSValue) (state : State) : ThunkRun α ε Unit :=
  let isEnabled := if isEnabled = .undefined then JSValue.bool true else isEnabled
  let disabledSites := getPreference state "editorConfirmationDisabledSites"
  let rest : List (Effect α ε) :=
    [ .dispatch
        (.recordTracksEvent
          (if isEnabled.truthy then "calypso_publish_confirmation_preference_enable"
           else "calypso_publish_confirmation_preference_disable")),
      .dispatch
        (.bumpStat "calypso_publish_confirmation"
          (if isEnabled.truthy then "enabled" else "disabled")) ]
  if isEnabled.truthy then
    { effects :=
        .dispatch
          (.savePreference "editorConfirmationDisabledSites"
            (lodashFilter disabledSites fun _siteId => siteId != _siteId))
          :: rest
      result := .ok () }
  else
    match disabledSites with
    | none => { effects := [], result := .error .typeError }
    | some disabledSites =>
      { effects :=
          .dispatch
            (.savePreference "editorConfirmationDisabledSites" (disabledSites ++ [siteId]))
            :: rest
        result := .ok () }

/-- The lists handed to `savePreference` during a run, in order. -/
def savedLists {α ε ρ : Type} (run : ThunkRun α ε ρ) : List (List JSValue) :=
  run.effects.filterMap fun
    | .dispatch (.savePreference _ value) => some value
    | _ => none

/-- The number of `dispatch` calls of a run. -/
def dispatchCount {α ε ρ : Type} (run : ThunkRun α ε ρ) : Nat :=
  (run.effects.filter fun
    | .dispatch _ => true
    | _ => false).length

/-- The number of `postAutosave` calls of a run. -/
def postAutosaveCount {α ε ρ : Type} (run : ThunkRun α ε ρ) : Nat :=
  (run.effects.filter fun
    | .postAutosave _ _ _ => true
    | _ => false).length

/-! ## Concrete inputs used in the examples below -/

/-- A site that is not a Jetpack site, yet carries an old `jetpack_version` option. -/
def staleOptionSite : Site :=
  { jetpack := false, options := some { jetpack_version := .str "3.0.0" } }

/-- A Jetpack site on an old version. -/
def oldJetpackSite : Site :=
  { jetpack := true, options := some { jetpack_version := .str "3.0.0" } }

/-- A Jetpack site on a current version. -/
def currentJetpackSite : Site :=
  { jetpack := true, options := some { jetpack_version := .str "5.0.0" } }

/-- The number `1` as a value. -/
def numberOne : JSValue := .num ⟨1, by decide⟩

/-- The number `2` as a value. -/
def numberTwo : JSValue := .num ⟨2, by decide⟩

/-- The number `11` as a value. -/
def numberEleven : JSValue := .num ⟨11, by decide⟩

/-- A post with an ID. -/
def savedPost : Post :=
  { ID := numberEleven
    site_ID := numberTwo
    content := .str "body"
    title := .str "hello"
    excerpt := .str "" }

/-- A post without an ID. -/
def unsavedPost : Post :=
  { ID := .undefined
    site_ID := numberTwo
    content := .str "body"
    title := .str "hello"
    excerpt := .str "" }

/-- A comparison table for the examples: `3.0.0` is below `3.7.0-dev`, nothing else is. -/
def tableVersionCompare (v1 : JSValue) (v2 : String) (operator : String) : Bool :=
  v1 = .str "3.0.0" && v2 = "3.7.0-dev" && operator = "<"

/-- A store state for the examples: just the selected site. -/
def selectedSiteOf (state : Option Site) : Option Site := state

/-- A network whose autosave request is fulfilled with the number `1`. -/
def fulfillingNetwork (_siteId _postId : JSValue) (_payload : AutosavePayload) :
    PromiseState Nat String :=
  .fulfilled 1

/-- A preference store for the examples: the state is the stored list itself. -/
def storedListOf (state : List JSValue) (_key : String) : Option (List JSValue) :=
  some state

/-- The list `L` with every occurrence of `siteId` removed and all other entries kept in
their original order, written out by recursion on `L`. This is the stated behaviour that
the list saved on enabling is compared with; it is not taken from the source. -/
def withoutEverySite (siteId : JSValue) : List JSValue → List JSValue
  | [] => []
  | x :: xs => if x = siteId then withoutEverySite siteId xs else x :: withoutEverySite siteId xs

/-! ## Properties of `internal-notification.js` -/

/-- C6: for every item and every new checked state `v`, the toggle handler applies
`onChange` exactly once, to the record with setting `item.field`, option `enabled` and
value `yes` when `v` is true, `no` when `v` is false; the value is `yes` exactly when `v`
is true. With the logging callback the log grows by that one record. -/
theorem toggle_calls_onChange_once {σ : Type} (props : InternalNotificationProps σ)
    (item : NotificationItem) (recipient checked isPlaceholder : JSValue)
    (v : Bool) (s : σ) (log : List ChangeRecord) :
    InternalNotification.toggle props (.bool v) s
        = props.onChange
            { setting := props.item.field
              option := "enabled"
              value := .str (if v then "yes" else "no") } s
      ∧ InternalNotification.toggle (loggingProps item recipient checked isPlaceholder)
            (.bool v) log
          = log ++ [{ setting := item.field
                      option := "enabled"
                      value := .str (if v then "yes" else "no") }]
      ∧ ((JSValue.str (if v then "yes" else "no") = .str "yes") ↔ v = true)
      ∧ ((JSValue.str (if v then "yes" else "no") = .str "no") ↔ v = false) := by
  cases v <;> simp [InternalNotification.toggle, loggingProps, recordChange, JSValue.truthy]

/-- C7: for every item and every input event whose target value is the string `s`, the
change handler applies `onChange` exactly once, to the record with setting `item.field`,
option `recipient` and value `s` itself, the empty string included. With the logging
callback the log grows by that one record. -/
theorem change_calls_onChange_once {σ : Type} (props : InternalNotificationProps σ)
    (item : NotificationItem) (recipient checked isPlaceholder : JSValue)
    (s : String) (st : σ) (log : List ChangeRecord) :
    InternalNotification.change props { target := { value := .str s } } st
        = props.onChange
            { setting := props.item.field, option := "recipient", value := .str s } st
      ∧ InternalNotification.change (loggingProps item recipient checked isPlaceholder)
            { target := { value := .str s } } log
          = log ++ [{ setting := item.field, option := "recipient", value := .str s }]
      ∧ InternalNotification.change (loggingProps item recipient checked isPlaceholder)
            { target := { value := .str "" } } log
          = log ++ [{ setting := item.field, option := "recipient", value := .str "" }] := by
  simp [InternalNotification.change, loggingProps, recordChange]

/-! ## Properties of the owner-change data layer -/

/-- C4: for every owner-change action, `handleSuccess` returns an array of exactly two
effects: the success notice built from `Connection owner changed to %(user)s.` with
`user` the new owner's display name, then the connection-data request for the action's
own site; the default export registers it as `onSuccess`. -/
theorem handleSuccess_two_effects (action : OwnerChangeAction) :
    handleSuccess action
        = .array
            [ .successNotice
                { original := "Connection owner changed to %(user)s."
                  args := [("user", action.newOwnerWpcomDisplayName)] },
              .requestJetpackUserConnectionData action.siteId ]
      ∧ (handleSuccess action).effects.length = 2
      ∧ ownerChangeHandlers.onSuccess action = handleSuccess action := by
  simp [handleSuccess, translate, HandlerResult.effects, ownerChangeHandlers]

/-- C5: for every owner-change action, `handleError` returns one error notice, not an
array, built from `Connection owner could not be changed to %(user)s. Please contact
support.` with `user` the attempted new owner's display name; no connection-data request
is among its effects. -/
theorem handleError_single_notice (action : OwnerChangeAction) :
    handleError action
        = .single
            (.errorNotice
              { original :=
                  "Connection owner could not be changed to %(user)s. Please contact support."
                args := [("user", action.newOwnerWpcomDisplayName)] })
      ∧ (handleError action).effects.length = 1
      ∧ (∀ effects, handleError action ≠ .array effects)
      ∧ (∀ siteId,
          OwnerEffect.requestJetpackUserConnectionData siteId ∉ (handleError action).effects)
      ∧ ownerChangeHandlers.onError action = handleError action := by
  simp [handleError, translate, HandlerResult.effects, ownerChangeHandlers]

/-- Characters from the space up, other than the double quote and the backslash, are
left as they are by the JSON escaping. -/
theorem flatMap_jsonEscapeChar_plain (l : List Char)
    (hPlain : ∀ c ∈ l, 32 ≤ c.toNat ∧ c.toNat ≠ 34 ∧ c.toNat ≠ 92) :
    l.flatMap jsonEscapeChar = l := by
  induction l with
  | nil => rfl
  | cons c cs ih =>
    obtain ⟨h32, h34, h92⟩ := hPlain c (List.mem_cons_self c cs)
    have hc : jsonEscapeChar c = [c] := by
      unfold jsonEscapeChar
      rw [if_neg h34, if_neg h92, if_neg (by omega), if_neg (by omega), if_neg (by omega),
        if_neg (by omega), if_neg (by omega), if_neg (by omega)]
    have hcs := ih fun d hd => hPlain d (List.mem_cons_of_mem c hd)
    simp [List.flatMap_cons, hc, hcs]

/-- The serialisation of an object with the one property `owner`, in terms of the
serialisation of its value. -/
theorem jsonStringify_owner (v : JSValue) (j : String) (hv : v.toJSON = some j) :
    jsonStringify [("owner", v)] = "\x7b\"owner\":" ++ j ++ "\x7d" := by
  have hq : jsonQuote "owner" = "\"owner\"" := by decide
  have hl : "\x7b" ++ ("\"owner\"" ++ ":") = "\x7b\"owner\":" := by decide
  simp only [jsonStringify, List.filterMap_cons, List.filterMap_nil, hv, Option.map_some',
    String.intercalate, String.intercalate.go, hq]
  rw [← hl]
  simp only [String.append_assoc]

/-- C8: for every owner-change action, `changeConnectionOwner` builds one `http` call
whose request has method `POST`, path `/jetpack-blogs/` + siteId + `/rest-api/`, inner
path `/jetpack/v4/connection/owner/` and inner body the JSON serialisation of
`{ owner: newOwnerWporgId }`, and whose second argument is the action itself.

The path and the body are also given character by character for each kind of value:
a numeric site ID `n` and a string site ID `s` stand in the path as their digits and as
`s` itself; a numeric owner `m` gives the body `{"owner":m}`, a string owner `t` without
characters to escape gives `{"owner":"t"}`, an `undefined` owner gives `{}`; a string
owner with a quote, a backslash and control characters is escaped as JSON prescribes. -/
theorem changeConnectionOwner_request (action : OwnerChangeAction) (n m : SafeInteger)
    (s t : String) :
    (changeConnectionOwner action).request.method = "POST"
      ∧ (changeConnectionOwner action).request.path
          = "/jetpack-blogs/" ++ action.siteId.toJSString ++ "/rest-api/"
      ∧ (changeConnectionOwner action).request.body.path = "/jetpack/v4/connection/owner/"
      ∧ (changeConnectionOwner action).request.body.body
          = jsonStringify [("owner", action.newOwnerWporgId)]
      ∧ (changeConnectionOwner action).action = action
      ∧ ownerChangeHandlers.fetch action = changeConnectionOwner action
      ∧ (changeConnectionOwner { action with siteId := .num n }).request.path
          = "/jetpack-blogs/" ++ toString n.val ++ "/rest-api/"
      ∧ (changeConnectionOwner { action with siteId := .str s }).request.path
          = "/jetpack-blogs/" ++ s ++ "/rest-api/"
      ∧ (changeConnectionOwner { action with siteId := .undefined }).request.path
          = "/jetpack-blogs/undefined/rest-api/"
      ∧ (changeConnectionOwner { action with siteId := .null }).request.path
          = "/jetpack-blogs/null/rest-api/"
      ∧ (changeConnectionOwner { action with siteId := .bool true }).request.path
          = "/jetpack-blogs/true/rest-api/"
      ∧ (changeConnectionOwner { action with siteId := .bool false }).request.path
          = "/jetpack-blogs/false/rest-api/"
      ∧ (changeConnectionOwner { action with newOwnerWporgId := .num m }).request.body.body
          = "\x7b\"owner\":" ++ toString m.val ++ "\x7d"
      ∧ ((∀ c ∈ t.toList, 32 ≤ c.toNat ∧ c.toNat ≠ 34 ∧ c.toNat ≠ 92) →
          (changeConnectionOwner { action with newOwnerWporgId := .str t }).request.body.body
            = "\x7b\"owner\":\"" ++ t ++ "\"\x7d")
      ∧ (changeConnectionOwner
            { action with newOwnerWporgId := .undefined }).request.body.body
          = "\x7b\x7d"
      ∧ (changeConnectionOwner { action with newOwnerWporgId := .null }).request.body.body
          = "\x7b\"owner\":null\x7d"
      ∧ (changeConnectionOwner
            { action with newOwnerWporgId := .bool true }).request.body.body
          = "\x7b\"owner\":true\x7d"
      ∧ (changeConnectionOwner
            { action with newOwnerWporgId := .bool false }).request.body.body
          = "\x7b\"owner\":false\x7d"
      ∧ (changeConnectionOwner
            { action with
              newOwnerWporgId :=
                .str "q\"b\\h\x08f\x0cn\nr\rt\tu\x01v\x0bw\x1fd\x7fé" }).request.body.body
          = "\x7b\"owner\":\"q\\\"b\\\\h\\bf\\fn\\nr\\rt\\tu\\u0001v\\u000bw\\u001fd\x7fé\"\x7d"
      ∧ (changeConnectionOwner
            { type := "JETPACK_USER_CONNECTION_CHANGE_OWNER"
              siteId := .num ⟨123, by decide⟩
              newOwnerWporgId := .num ⟨-7, by decide⟩
              newOwnerWpcomDisplayName := .str "bob" }).request
          = { apiVersion := "1.1"
              method := "POST"
              path := "/jetpack-blogs/123/rest-api/"
              body :=
                { path := "/jetpack/v4/connection/owner/"
                  body := "\x7b\"owner\":-7\x7d"
                  json := true } } := by
  refine ⟨rfl, rfl, rfl, rfl, rfl, rfl, rfl, rfl, rfl, rfl, rfl, rfl, ?_, ?_, ?_, ?_, ?_, ?_,
    ?_, ?_⟩
  · exact jsonStringify_owner (.num m) _ rfl
  · intro hPlain
    have hq : jsonQuote t = "\"" ++ t ++ "\"" := by
      have hFlat : t.data.flatMap jsonEscapeChar = t.data :=
        flatMap_jsonEscapeChar_plain t.data hPlain
      apply String.ext
      simp [jsonQuote, hFlat, String.data_append]
    have hb := jsonStringify_owner (.str t) _ rfl
    simp only [changeConnectionOwner, http]
    rw [hb, hq]
    have hl : "\x7b\"owner\":" ++ "\"" = "\x7b\"owner\":\"" := by decide
    have hr : "\"" ++ "\x7d" = "\"\x7d" := by decide
    rw [← hl, ← hr]
    simp only [String.append_assoc]
  · exact (by decide : jsonStringify [("owner", JSValue.undefined)] = "\x7b\x7d")
  · exact (by decide : jsonStringify [("owner", JSValue.null)] = "\x7b\"owner\":null\x7d")
  · exact (by decide :
      jsonStringify [("owner", JSValue.bool true)] = "\x7b\"owner\":true\x7d")
  · exact (by decide :
      jsonStringify [("owner", JSValue.bool false)] = "\x7b\"owner\":false\x7d")
  · exact (by decide :
      jsonStringify [("owner", JSValue.str "q\"b\\h\x08f\x0cn\nr\rt\tu\x01v\x0bw\x1fd\x7fé")]
        = "\x7b\"owner\":\"q\\\"b\\\\h\\bf\\fn\\nr\\rt\\tu\\u0001v\\u000bw\\u001fd\x7fé\"\x7d")
  · decide

/-- C8 at site `2` with a new owner called `bob`: the string owner has no character to
escape and stands in the body between quotes. -/
theorem changeConnectionOwner_request_witness :
    (∀ c ∈ "bob".toList, 32 ≤ c.toNat ∧ c.toNat ≠ 34 ∧ c.toNat ≠ 92)
      ∧ (changeConnectionOwner
            { type := "JETPACK_USER_CONNECTION_CHANGE_OWNER"
              siteId := numberTwo
              newOwnerWporgId := .str "bob"
              newOwnerWpcomDisplayName := .str "bob" }).request.body.body
          = "\x7b\"owner\":\"" ++ "bob" ++ "\"\x7d" :=
  ⟨by decide,
    (changeConnectionOwner_request
      { type := "JETPACK_USER_CONNECTION_CHANGE_OWNER"
        siteId := numberTwo
        newOwnerWporgId := .undefined
        newOwnerWpcomDisplayName := .str "bob" }
      ⟨0, by decide⟩ ⟨0, by decide⟩ "" "bob").2.2.2.2.2.2.2.2.2.2.2.2.2.1 (by decide)⟩

/-! ## Properties of the editor actions -/

/-- Lodash `filter` with the predicate `siteId !== _siteId` computes the stated list. -/
theorem lodashFilter_eq_withoutEverySite (siteId : JSValue) (L : List JSValue) :
    lodashFilter (some L) (fun _siteId => siteId != _siteId) = withoutEverySite siteId L := by
  induction L with
  | nil => rfl
  | cons x xs ih =>
    simp only [lodashFilter] at ih
    by_cases hx : x = siteId
    · subst hx
      simp [lodashFilter, withoutEverySite, List.filter, ih]
    · have hne : (siteId != x) = true := by
        simpa [bne_iff_ne] using fun h => hx h.symm
      simp [lodashFilter, withoutEverySite, List.filter, hne, hx, ih]

/-- The stated list does not contain `siteId`. -/
theorem not_mem_withoutEverySite (siteId : JSValue) (L : List JSValue) :
    siteId ∉ withoutEverySite siteId L := by
  induction L with
  | nil => simp [withoutEverySite]
  | cons x xs ih =>
    by_cases hx : x = siteId
    · simpa [withoutEverySite, hx] using ih
    · simp only [withoutEverySite, hx, if_false, List.mem_cons, not_or]
      exact ⟨fun h => hx h.symm, ih⟩

/-- The stated list is `L` with some entries dropped, order kept. -/
theorem withoutEverySite_sublist (siteId : JSValue) (L : List JSValue) :
    (withoutEverySite siteId L).Sublist L := by
  induction L with
  | nil => simp [withoutEverySite]
  | cons x xs ih =>
    by_cases hx : x = siteId
    · simpa [withoutEverySite, hx] using ih.cons x
    · simpa [withoutEverySite, hx] using ih.cons₂ x

/-- Every entry other than `siteId` occurs in the stated list as often as in `L`. -/
theorem count_withoutEverySite (siteId x : JSValue) (hx : x ≠ siteId) (L : List JSValue) :
    (withoutEverySite siteId L).count x = L.count x := by
  induction L with
  | nil => simp [withoutEverySite]
  | cons y ys ih =>
    by_cases hy : y = siteId
    · subst hy
      have : (y == x) = false := by simpa using fun h => hx h.symm
      simp [withoutEverySite, List.count_cons, ih, this]
    · simp [withoutEverySite, hy, List.count_cons, ih]

/-- C1: for every store state, selected site, version comparison and network, and every
post whose ID is missing or falsy, `editorAutosave` returns a promise rejected with
`NO_AUTOSAVE` and has no effect at all: no dispatch (so no `EDITOR_AUTOSAVE`) and no
`postAutosave` call. -/
theorem editorAutosave_falsy_id_rejects {State α ε : Type}
    (getSelectedSite : State → Option Site)
    (versionCompare : JSValue → String → String → Bool)
    (postAutosave : JSValue → JSValue → AutosavePayload → PromiseState α ε)
    (post : Post) (state : State) (hID : post.ID.truthy = false) :
    (editorAutosave getSelectedSite versionCompare postAutosave post state).result
        = .ok (.rejected (.error "NO_AUTOSAVE"))
      ∧ (editorAutosave getSelectedSite versionCompare postAutosave post state).effects = []
      ∧ dispatchCount (editorAutosave getSelectedSite versionCompare postAutosave post state)
          = 0
      ∧ postAutosaveCount
          (editorAutosave getSelectedSite versionCompare postAutosave post state) = 0
      ∧ Effect.dispatch EditorAction.EDITOR_AUTOSAVE
          ∉ (editorAutosave getSelectedSite versionCompare postAutosave post state).effects := by
  simp [editorAutosave, hID, rejectNoAutosave, dispatchCount, postAutosaveCount]

/-- C1 at a post without an ID, on a current Jetpack site. -/
theorem editorAutosave_falsy_id_rejects_witness :
    unsavedPost.ID.truthy = false
      ∧ (editorAutosave selectedSiteOf tableVersionCompare fulfillingNetwork unsavedPost
          (some currentJetpackSite)).effects = [] :=
  ⟨by decide,
    (editorAutosave_falsy_id_rejects selectedSiteOf tableVersionCompare fulfillingNetwork
      unsavedPost (some currentJetpackSite) (by decide)).2.1⟩

/-- C2 fails as stated: the selected site is not a Jetpack site, its `jetpack_version`
option `3.0.0` compares below `3.7.0-dev`, and the autosave of a post with an ID goes
ahead: `EDITOR_AUTOSAVE` is dispatched, the request is sent, and the returned promise is
the fulfilled request, not a rejection. -/
theorem editorAutosave_stale_option_not_rejected :
    staleOptionSite.options = some { jetpack_version := .str "3.0.0" }
      ∧ tableVersionCompare (.str "3.0.0") "3.7.0-dev" "<" = true
      ∧ (editorAutosave selectedSiteOf tableVersionCompare fulfillingNetwork savedPost
          (some staleOptionSite)).effects
          = [ .dispatch .EDITOR_AUTOSAVE,
              .postAutosave numberTwo numberEleven
                { content := .str "body", title := .str "hello", excerpt := .str "" },
              .dispatch (.EDITOR_AUTOSAVE_SUCCESS 1) ]
      ∧ (editorAutosave selectedSiteOf tableVersionCompare fulfillingNetwork savedPost
          (some staleOptionSite)).result = .ok (.fulfilled 1)
      ∧ ¬ ((editorAutosave selectedSiteOf tableVersionCompare fulfillingNetwork savedPost
              (some staleOptionSite)).effects = []) := by
  refine ⟨rfl, by decide, rfl, rfl, ?_⟩
  intro h
  exact absurd (congrArg List.length h) (by decide)

/-- C2, amended: for every post and every store state whose selected site is a Jetpack
site (`site.jetpack` truthy) with a Jetpack version that compares below `3.7.0-dev`,
`editorAutosave` returns a promise rejected with `NO_AUTOSAVE`, with no dispatch and no
network call. -/
theorem editorAutosave_old_jetpack_rejects {State α ε : Type}
    (getSelectedSite : State → Option Site)
    (versionCompare : JSValue → String → String → Bool)
    (postAutosave : JSValue → JSValue → AutosavePayload → PromiseState α ε)
    (post : Post) (state : State) (site : Site) (options : SiteOptions)
    (hSite : getSelectedSite state = some site)
    (hJetpack : site.jetpack = true)
    (hOptions : site.options = some options)
    (hBelow : versionCompare options.jetpack_version "3.7.0-dev" "<" = true) :
    (editorAutosave getSelectedSite versionCompare postAutosave post state).result
        = .ok (.rejected (.error "NO_AUTOSAVE"))
      ∧ (editorAutosave getSelectedSite versionCompare postAutosave post state).effects = []
      ∧ dispatchCount (editorAutosave getSelectedSite versionCompare postAutosave post state)
          = 0
      ∧ postAutosaveCount
          (editorAutosave getSelectedSite versionCompare postAutosave post state) = 0 := by
  cases hT : post.ID.truthy <;>
    simp [editorAutosave, hT, hSite, hJetpack, hOptions, hBelow, rejectNoAutosave,
      dispatchCount, postAutosaveCount]

/-- C2, amended, at a post with an ID on a Jetpack site running `3.0.0`. -/
theorem editorAutosave_old_jetpack_rejects_witness :
    selectedSiteOf (some oldJetpackSite) = some oldJetpackSite
      ∧ oldJetpackSite.jetpack = true
      ∧ tableVersionCompare (.str "3.0.0") "3.7.0-dev" "<" = true
      ∧ (editorAutosave selectedSiteOf tableVersionCompare fulfillingNetwork savedPost
          (some oldJetpackSite)).effects = [] :=
  ⟨rfl, rfl, by decide,
    (editorAutosave_old_jetpack_rejects selectedSiteOf tableVersionCompare fulfillingNetwork
      savedPost (some oldJetpackSite) oldJetpackSite { jetpack_version := .str "3.0.0" }
      rfl rfl rfl (by decide)).2.1⟩

/-- C3: whenever one of the three guards holds (post ID falsy, no selected site, or a
Jetpack site whose version compares below `3.7.0-dev`), the returned promise is rejected
with an `Error` whose message is exactly `NO_AUTOSAVE`, and nothing is dispatched or sent;
in particular this is so when `getSelectedSite` yields no site. -/
theorem editorAutosave_guard_rejects_with_sentinel {State α ε : Type}
    (getSelectedSite : State → Option Site)
    (versionCompare : JSValue → String → String → Bool)
    (postAutosave : JSValue → JSValue → AutosavePayload → PromiseState α ε)
    (post : Post) (state : State)
    (hGuard : post.ID.truthy = false
      ∨ getSelectedSite state = none
      ∨ ∃ site options, getSelectedSite state = some site ∧ site.jetpack = true
          ∧ site.options = some options
          ∧ versionCompare options.jetpack_version "3.7.0-dev" "<" = true) :
    (editorAutosave getSelectedSite versionCompare postAutosave post state).result
        = .ok (.rejected (.error "NO_AUTOSAVE"))
      ∧ (editorAutosave getSelectedSite versionCompare postAutosave post state).effects = []
      ∧ (getSelectedSite state = none →
          (editorAutosave getSelectedSite versionCompare postAutosave post state).result
              = .ok (.rejected (.error "NO_AUTOSAVE"))
            ∧ dispatchCount
                (editorAutosave getSelectedSite versionCompare postAutosave post state) = 0
            ∧ postAutosaveCount
                (editorAutosave getSelectedSite versionCompare postAutosave post state) = 0) := by
  have key :
      editorAutosave getSelectedSite versionCompare postAutosave post state
        = rejectNoAutosave := by
    rcases hGuard with hID | hNone | ⟨site, options, hSite, hJetpack, hOptions, hBelow⟩
    · simp [editorAutosave, hID]
    · cases hT : post.ID.truthy <;> simp [editorAutosave, hT, hNone]
    · cases hT : post.ID.truthy <;>
        simp [editorAutosave, hT, hSite, hJetpack, hOptions, hBelow]
  rw [key]
  simp [rejectNoAutosave, dispatchCount, postAutosaveCount]

/-- C3 at a post with an ID when no site is selected. -/
theorem editorAutosave_guard_rejects_with_sentinel_witness :
    selectedSiteOf none = none
      ∧ (editorAutosave selectedSiteOf tableVersionCompare fulfillingNetwork savedPost
          none).result = .ok (.rejected (.error "NO_AUTOSAVE")) :=
  ⟨rfl,
    (editorAutosave_guard_rejects_with_sentinel selectedSiteOf tableVersionCompare
      fulfillingNetwork savedPost none (Or.inr (Or.inl rfl))).1⟩

/-- C9: for every post with a truthy ID and every state whose selected site exists and is
either not a Jetpack site or has a Jetpack version not below `3.7.0-dev`, the thunk first
dispatches `EDITOR_AUTOSAVE`, then makes exactly one `postAutosave` call for site
`post.site_ID` and post `post.ID` with payload `{ content, title, excerpt }` of the post;
if the request is fulfilled with `a` the one follow-up is `editorAutosaveSuccess( a )`, if
it is rejected with `e` the one follow-up is `editorAutosaveFailure( e )`; the returned
promise is the request's own. -/
theorem editorAutosave_proceeds {State α ε : Type}
    (getSelectedSite : State → Option Site)
    (versionCompare : JSValue → String → String → Bool)
    (postAutosave : JSValue → JSValue → AutosavePayload → PromiseState α ε)
    (post : Post) (state : State) (site : Site)
    (hID : post.ID.truthy = true)
    (hSite : getSelectedSite state = some site)
    (hSupported : site.jetpack = false
      ∨ ∃ options, site.options = some options
          ∧ versionCompare options.jetpack_version "3.7.0-dev" "<" = false) :
    (∃ followUp,
        (editorAutosave getSelectedSite versionCompare postAutosave post state).effects
            = Effect.dispatch EditorAction.EDITOR_AUTOSAVE
                :: Effect.postAutosave post.site_ID post.ID
                    { content := post.content, title := post.title, excerpt := post.excerpt }
                :: followUp
          ∧ (∀ a,
              postAutosave post.site_ID post.ID
                  { content := post.content, title := post.title, excerpt := post.excerpt }
                = .fulfilled a →
              followUp = [Effect.dispatch (editorAutosaveSuccess a)])
          ∧ (∀ e,
              postAutosave post.site_ID post.ID
                  { content := post.content, title := post.title, excerpt := post.excerpt }
                = .rejected e →
              followUp = [Effect.dispatch (editorAutosaveFailure e)]))
      ∧ postAutosaveCount
          (editorAutosave getSelectedSite versionCompare postAutosave post state) = 1
      ∧ (editorAutosave getSelectedSite versionCompare postAutosave post state).result
          = .ok (postAutosave post.site_ID post.ID
                  { content := post.content, title := post.title, excerpt := post.excerpt }) := by
  have key :
      editorAutosave getSelectedSite versionCompare postAutosave post state
        = { effects :=
              [Effect.dispatch EditorAction.EDITOR_AUTOSAVE,
                Effect.postAutosave post.site_ID post.ID
                  { content := post.content, title := post.title, excerpt := post.excerpt }]
                ++ autosaveFollowUp
                    (postAutosave post.site_ID post.ID
                      { content := post.content, title := post.title,
                        excerpt := post.excerpt })
            result :=
              .ok (postAutosave post.site_ID post.ID
                    { content := post.content, title := post.title,
                      excerpt := post.excerpt }) } := by
    rcases hSupported with hNot | ⟨options, hOptions, hNotBelow⟩
    · simp [editorAutosave, hID, hSite, hNot]
    · cases hJ : site.jetpack <;>
        simp [editorAutosave, hID, hSite, hJ, hOptions, hNotBelow]
  rw [key]
  refine ⟨⟨autosaveFollowUp _, rfl, ?_, ?_⟩, ?_, rfl⟩
  · intro a ha
    rw [ha]
    rfl
  · intro e he
    rw [he]
    rfl
  · cases hR : postAutosave post.site_ID post.ID
        { content := post.content, title := post.title, excerpt := post.excerpt } <;>
      simp [postAutosaveCount, autosaveFollowUp, hR]

/-- C9 at a post with an ID on a current Jetpack site, the request being fulfilled. -/
theorem editorAutosave_proceeds_witness :
    savedPost.ID.truthy = true
      ∧ selectedSiteOf (some currentJetpackSite) = some currentJetpackSite
      ∧ tableVersionCompare (.str "5.0.0") "3.7.0-dev" "<" = false
      ∧ (editorAutosave selectedSiteOf tableVersionCompare fulfillingNetwork savedPost
          (some currentJetpackSite)).result = .ok (.fulfilled 1) :=
  ⟨by decide, rfl, by decide,
    (editorAutosave_proceeds selectedSiteOf tableVersionCompare fulfillingNetwork savedPost
      (some currentJetpackSite) currentJetpackSite (by decide) rfl
      (Or.inr ⟨{ jetpack_version := .str "5.0.0" }, rfl, by decide⟩)).2.2⟩

/-- C10: for every site ID and every stored list `L` of disabled sites, the thunk makes
exactly three dispatches, in the order `savePreference`, `recordTracksEvent`, `bumpStat`.
With `isEnabled` true the saved list is `L` with every occurrence of `siteId` removed and
the other entries kept in order, so `siteId` is not in it. With `isEnabled` false the
saved list is `L` with `siteId` appended, without de-duplication: run again on the list
just saved, it stores `siteId` twice. -/
theorem saveConfirmationSidebarPreference_effects {State α ε : Type}
    (getPreference : State → String → Option (List JSValue))
    (siteId : JSValue) (L : List JSValue) (state next : State)
    (hStored : getPreference state "editorConfirmationDisabledSites" = some L)
    (hNext : getPreference next "editorConfirmationDisabledSites" = some (L ++ [siteId])) :
    (saveConfirmationSidebarPreference getPreference siteId (.bool true) state :
        ThunkRun α ε Unit).effects
        = [ .dispatch
              (.savePreference "editorConfirmationDisabledSites" (withoutEverySite siteId L)),
            .dispatch (.recordTracksEvent "calypso_publish_confirmation_preference_enable"),
            .dispatch (.bumpStat "calypso_publish_confirmation" "enabled") ]
      ∧ siteId ∉ withoutEverySite siteId L
      ∧ (withoutEverySite siteId L).Sublist L
      ∧ (∀ x, x ≠ siteId → (withoutEverySite siteId L).count x = L.count x)
      ∧ (saveConfirmationSidebarPreference getPreference siteId (.bool false) state :
          ThunkRun α ε Unit).effects
          = [ .dispatch (.savePreference "editorConfirmationDisabledSites" (L ++ [siteId])),
              .dispatch (.recordTracksEvent "calypso_publish_confirmation_preference_disable"),
              .dispatch (.bumpStat "calypso_publish_confirmation" "disabled") ]
      ∧ savedLists (saveConfirmationSidebarPreference getPreference siteId (.bool false) next :
          ThunkRun α ε Unit) = [L ++ [siteId] ++ [siteId]]
      ∧ (L ++ [siteId] ++ [siteId]).count siteId = L.count siteId + 2
      ∧ dispatchCount (saveConfirmationSidebarPreference getPreference siteId (.bool true)
          state : ThunkRun α ε Unit) = 3
      ∧ dispatchCount (saveConfirmationSidebarPreference getPreference siteId (.bool false)
          state : ThunkRun α ε Unit) = 3 := by
  have hFilter := lodashFilter_eq_withoutEverySite siteId L
  refine ⟨?_, not_mem_withoutEverySite siteId L, withoutEverySite_sublist siteId L,
    fun x hx => count_withoutEverySite siteId x hx L, ?_, ?_, ?_, ?_, ?_⟩
  · simp [saveConfirmationSidebarPreference, hStored, JSValue.truthy, hFilter]
  · simp [saveConfirmationSidebarPreference, hStored, JSValue.truthy]
  · simp [saveConfirmationSidebarPreference, hNext, JSValue.truthy, savedLists]
  · simp [List.count_append]
  · simp [saveConfirmationSidebarPreference, hStored, JSValue.truthy, dispatchCount]
  · simp [saveConfirmationSidebarPreference, hStored, JSValue.truthy, dispatchCount]

/-- C10 at site `2` with the stored list `[1, 2, 1]`, then `[1, 2, 1, 2]`. -/
theorem saveConfirmationSidebarPreference_effects_witness :
    storedListOf [numberOne, numberTwo, numberOne] "editorConfirmationDisabledSites"
        = some [numberOne, numberTwo, numberOne]
      ∧ storedListOf [numberOne, numberTwo, numberOne, numberTwo] "editorConfirmationDisabledSites"
        = some ([numberOne, numberTwo, numberOne] ++ [numberTwo])
      ∧ savedLists (saveConfirmationSidebarPreference storedListOf numberTwo (.bool false)
          [numberOne, numberTwo, numberOne, numberTwo] : ThunkRun Nat String Unit)
          = [[numberOne, numberTwo, numberOne] ++ [numberTwo] ++ [numberTwo]] :=
  ⟨rfl, rfl,
    (saveConfirmationSidebarPreference_effects storedListOf numberTwo
      [numberOne, numberTwo, numberOne] [numberOne, numberTwo, numberOne] [numberOne, numberTwo, numberOne, numberTwo]
      rfl rfl).2.2.2.2.2.1⟩

end Calypso
